import Mathlib

/-!
Verification development for the `gitignore-gen` repository
(`src/gitignore_gen/template_manager.py` and `src/gitignore_gen/ai_recommendations.py`).

Conventions of the embedding:
* Python `datetime` values are opaque to the program logic (only stored,
  compared for nothing, and serialized/deserialized losslessly via
  `isoformat`/`fromisoformat`); they are modelled as `Nat`.
* Python `float` confidences/ratings are modelled as `ℚ`; every literal in the
  source (0.8, 0.85, 0.9, 0.95) is exactly representable and only compared.
* `hashlib.sha256(...).hexdigest()` is modelled by a full executable SHA-256
  over the UTF-8 bytes of the string.
* File-system side effects (writing per-template `.gitignore` files, the JSON
  metadata file) are abstracted: the store state is the metadata database,
  a keyed collection `List (String × Template)` mirroring the Python dict
  (insertion ordered, key unique).
* Interactive `Confirm.ask` prompts are modelled as boolean parameters
  (the spec's confirmation-callback contract, spec section 6).
-/

namespace GitignoreGen

/-! ### UTF-8 bytes (Python `str.encode()`), modelling bytes as `Nat < 256` -/

/-- UTF-8 encoding of a single code point, as natural numbers below 256. -/
def utf8Bytes (c : Char) : List Nat :=
  let n := c.toNat
  if n < 0x80 then [n]
  else if n < 0x800 then
    [0xC0 ||| (n >>> 6), 0x80 ||| (n &&& 0x3F)]
  else if n < 0x10000 then
    [0xE0 ||| (n >>> 12), 0x80 ||| ((n >>> 6) &&& 0x3F), 0x80 ||| (n &&& 0x3F)]
  else
    [0xF0 ||| (n >>> 18), 0x80 ||| ((n >>> 12) &&& 0x3F),
     0x80 ||| ((n >>> 6) &&& 0x3F), 0x80 ||| (n &&& 0x3F)]

/-- UTF-8 bytes of a string: Python `content.encode()`. -/
def strBytes (s : String) : List Nat :=
  s.toList.flatMap utf8Bytes

/-! ### SHA-256 (Python `hashlib.sha256(content.encode()).hexdigest()`)

Words are `Nat` with arithmetic taken mod `2 ^ 32` explicitly. -/

/-- 32-bit word modulus. -/
def w32 : Nat := 4294967296

/-- Right rotation of a 32-bit word. -/
def rotr (n x : Nat) : Nat := ((x >>> n) ||| (x <<< (32 - n))) % w32

/-- SHA-256 round constants (FIPS 180-4 section 4.2.2, written in decimal). -/
def sha256K : List Nat :=
  [1116352408, 1899447441, 3049323471, 3921009573, 961987163,
   1508970993, 2453635748, 2870763221, 3624381080, 310598401,
   607225278, 1426881987, 1925078388, 2162078206, 2614888103,
   3248222580, 3835390401, 4022224774, 264347078, 604807628,
   770255983, 1249150122, 1555081692, 1996064986, 2554220882,
   2821834349, 2952996808, 3210313671, 3336571891, 3584528711,
   113926993, 338241895, 666307205, 773529912, 1294757372,
   1396182291, 1695183700, 1986661051, 2177026350, 2456956037,
   2730485921, 2820302411, 3259730800, 3345764771, 3516065817,
   3600352804, 4094571909, 275423344, 430227734, 506948616,
   659060556, 883997877, 958139571, 1322822218, 1537002063,
   1747873779, 1955562222, 2024104815, 2227730452, 2361852424,
   2428436474, 2756734187, 3204031479, 3329325298]

/-- SHA-256 initial hash state (FIPS 180-4 section 5.3.3, written in decimal). -/
def sha256H0 : List Nat :=
  [1779033703, 3144134277, 1013904242, 2773480762,
   1359893119, 2600822924, 528734635, 1541459225]

/-- Total list indexing with default 0, used for word lookups. -/
def nth (l : List Nat) (i : Nat) : Nat := (l[i]?).getD 0

/-- Big-endian bytes of a value, `n` bytes wide. -/
def beBytes (n v : Nat) : List Nat :=
  (List.range n).map (fun i => (v >>> (8 * (n - 1 - i))) % 256)

/-- SHA-256 message padding: append `0x80`, zeros to 56 mod 64, then the
64-bit big-endian bit length. -/
def padMessage (bytes : List Nat) : List Nat :=
  let ml := bytes.length
  let padZeros := (119 - ml % 64) % 64
  bytes ++ [0x80] ++ List.replicate padZeros 0 ++ beBytes 8 (ml * 8)

/-- Split a padded message into 64-byte blocks. -/
def toBlocks (bs : List Nat) : List (List Nat) :=
  (List.range (bs.length / 64)).map (fun i => ((bs.drop (64 * i)).take 64))

/-- σ₀ small sigma. -/
def ssig0 (x : Nat) : Nat := (rotr 7 x) ^^^ (rotr 18 x) ^^^ (x >>> 3)

/-- σ₁ small sigma. -/
def ssig1 (x : Nat) : Nat := (rotr 17 x) ^^^ (rotr 19 x) ^^^ (x >>> 10)

/-- Expand a 16-word block to the 64-word message schedule. -/
def scheduleWords (w0 : List Nat) : List Nat :=
  (List.range 48).foldl
    (fun w i =>
      w ++ [(nth w i + ssig0 (nth w (i + 1)) + nth w (i + 9) + ssig1 (nth w (i + 14))) % w32])
    w0

/-- One SHA-256 round; the state is the list `[a, b, c, d, e, f, g, h]`. -/
def sha256Round (st : List Nat) (wk : Nat × Nat) : List Nat :=
  let a := nth st 0
  let b := nth st 1
  let c := nth st 2
  let d := nth st 3
  let e := nth st 4
  let f := nth st 5
  let g := nth st 6
  let h := nth st 7
  let s1 := (rotr 6 e) ^^^ (rotr 11 e) ^^^ (rotr 25 e)
  let ch := (e &&& f) ^^^ ((e ^^^ 0xFFFFFFFF) &&& g)
  let temp1 := (h + s1 + ch + wk.2 + wk.1) % w32
  let s0 := (rotr 2 a) ^^^ (rotr 13 a) ^^^ (rotr 22 a)
  let maj := (a &&& b) ^^^ (a &&& c) ^^^ (b &&& c)
  let temp2 := (s0 + maj) % w32
  [(temp1 + temp2) % w32, a, b, c, (d + temp1) % w32, e, f, g]

/-- Compress one 64-byte block into the running hash state (8 words). -/
def sha256Block (hs : List Nat) (block : List Nat) : List Nat :=
  let w0 := (List.range 16).map (fun i =>
    ((block.drop (4 * i)).take 4).foldl (fun acc b => acc * 256 + b) 0)
  let w := scheduleWords w0
  let final := (w.zip sha256K).foldl sha256Round hs
  List.zipWith (fun x y => (x + y) % w32) hs final

/-- SHA-256 digest (8 words) of a byte sequence. -/
def sha256Digest (bytes : List Nat) : List Nat :=
  (toBlocks (padMessage bytes)).foldl sha256Block sha256H0

/-- Lowercase hex digit. -/
def hexDigit (n : Nat) : Char :=
  if n < 10 then Char.ofNat (48 + n) else Char.ofNat (87 + n)

/-- 8 lowercase hex digits of a 32-bit word. -/
def wordHex (w : Nat) : List Char :=
  (List.range 8).map (fun i => hexDigit ((w >>> (4 * (7 - i))) % 16))

/-- `TemplateManager._calculate_checksum`:
`hashlib.sha256(content.encode()).hexdigest()`. -/
def sha256Hex (s : String) : String :=
  String.mk ((sha256Digest (strBytes s)).flatMap wordHex)

/-! ### String helpers shared by the validator and the engine

Python `str` operations are modelled on the code-point list of the string
(`String.toList`), mirroring Python strings as sequences of code points. -/

/-- Python default whitespace for `str.strip()`. -/
def pyWhitespace (c : Char) : Bool :=
  c = ' ' || c = '\t' || c = '\n' || c = '\r' || c = '\x0b' || c = '\x0c'

/-- `str.strip()` on a code-point list: drop whitespace at both ends. -/
def stripL (l : List Char) : List Char :=
  ((l.dropWhile pyWhitespace).reverse.dropWhile pyWhitespace).reverse

/-- Python `s.strip()`. -/
def pyStrip (s : String) : String := String.mk (stripL s.toList)

/-- Python `s.startswith(pat)`. -/
def pyStartsWith (s pat : String) : Bool := List.isPrefixOf pat.toList s.toList

/-- Python `s.endswith(pat)`. -/
def pyEndsWith (s pat : String) : Bool := List.isSuffixOf pat.toList s.toList

/-- Python `s.split('\n')` on a code-point list. -/
def splitNlL : List Char → List (List Char)
  | [] => [[]]
  | c :: rest =>
    if c = '\n' then [] :: splitNlL rest
    else
      match splitNlL rest with
      | [] => [[c]]
      | h :: t => (c :: h) :: t

/-- Python `content.split('\n')`. -/
def pySplitLines (s : String) : List String := (splitNlL s.toList).map String.mk

/-- Substring containment on char lists; `hasSub pat l` is Python `pat in l`
for a non-empty pattern. -/
def hasSub (pat : List Char) : List Char → Bool
  | [] => false
  | c :: rest => pat.isPrefixOf (c :: rest) || hasSub pat rest

/-- Python `'**' in line` (on the stripped line). -/
def hasDoubleStar (line : String) : Bool :=
  hasSub ['*', '*'] line.toList

/-- Python `name.replace('-', '').replace('_', '')`: removing every occurrence
of a single character is filtering it out; the two `replace` calls are the two
filters. -/
def stripSeps (name : String) : String :=
  String.mk ((name.toList.filter (fun c => c ≠ '-')).filter (fun c => c ≠ '_'))

/-- Python `str.isalnum()`: non-empty and every character alphanumeric
(restricted to ASCII alphanumerics; all inputs considered here are ASCII). -/
def pyIsAlnum (s : String) : Bool :=
  !s.toList.isEmpty && s.toList.all (fun c => c.isAlphanum)

/-! ### `TemplateValidator` (template_manager.py lines 508-546) -/

/-- The error messages appended by `validate_template_content` are f-strings
carrying the (1-based) line number and the stripped line; they are embedded as
tagged values with the same data, one constructor per distinct message. -/
inductive ContentError where
  /-- "Template content cannot be empty" -/
  | emptyContent : ContentError
  /-- "Line i: Invalid pattern line - absolute paths should end with /" -/
  | absolutePath (lineNo : Nat) (line : String) : ContentError
  /-- "Line i: Invalid pattern line - double star should be followed by /" -/
  | doubleStar (lineNo : Nat) (line : String) : ContentError
deriving DecidableEq, Repr

/-- Line number carried by a content error (the empty-content error is
appended before the per-line loop; it carries line 0). -/
def ContentError.lineNo : ContentError → Nat
  | .emptyContent => 0
  | .absolutePath i _ => i
  | .doubleStar i _ => i

/-- Body of the `for i, line in enumerate(lines, 1)` loop of
`validate_template_content`: the errors contributed by one line. -/
def lineErrors (i : Nat) (rawLine : String) : List ContentError :=
  let line := pyStrip rawLine
  if line ≠ "" && !pyStartsWith line "#" then
    (if pyStartsWith line "/" && !pyEndsWith line "/" then [.absolutePath i line] else []) ++
    (if hasDoubleStar line && !pyEndsWith line "/" then [.doubleStar i line] else [])
  else []

/-- The full error list accumulated by `validate_template_content`. -/
def contentErrors (content : String) : List ContentError :=
  (if pyStrip content = "" then [.emptyContent] else []) ++
  (List.enumFrom 1 (pySplitLines content)).flatMap (fun p => lineErrors p.1 p.2)

/-- `TemplateValidator.validate_template_content` (lines 511-530):
returns `len(errors) == 0` and the error list. -/
def validate_template_content (content : String) : Bool × List ContentError :=
  let errors := contentErrors content
  (errors.length == 0, errors)

/-- "Template name cannot be empty" -/
def nameEmptyMsg : String := "Template name cannot be empty"

/-- "Template name too long (max 50 characters)" -/
def nameTooLongMsg : String := "Template name too long (max 50 characters)"

/-- "Template name must be alphanumeric with optional hyphens/underscores" -/
def nameAlnumMsg : String :=
  "Template name must be alphanumeric with optional hyphens/underscores"

/-- `TemplateValidator.validate_template_name` (lines 532-546). -/
def validate_template_name (name : String) : Bool × List String :=
  let errors :=
    (if name = "" then [nameEmptyMsg] else []) ++
    (if name.length > 50 then [nameTooLongMsg] else []) ++
    (if !pyIsAlnum (stripSeps name) then [nameAlnumMsg] else [])
  (errors.length == 0, errors)

/-! ### `Template` and the store (`TemplateManager`) -/

/-- Timestamps are opaque to the logic; modelled as `Nat`. -/
abbrev DateTime := Nat

/-- The `Template` dataclass (template_manager.py lines 25-42). -/
structure Template where
  name : String
  description : String
  content : String
  author : String
  version : String
  tags : List String
  technologies : List String
  created_at : DateTime
  updated_at : DateTime
  downloads : Nat
  rating : ℚ
  is_official : Bool
  is_custom : Bool
  file_size : Nat
  checksum : String
deriving DecidableEq, Repr

/-- The metadata database `templates_db`: a Python dict `name → Template`,
modelled as an insertion-ordered association list with unique keys. -/
abbrev Store := List (String × Template)

/-- Dict lookup `self.templates_db.get(name)` / `name in self.templates_db`. -/
def dbGet (db : Store) (name : String) : Option Template :=
  match db with
  | [] => none
  | p :: rest => if p.1 = name then some p.2 else dbGet rest name

/-- Dict assignment `self.templates_db[name] = t`: replaces in place when the
key exists, appends otherwise (Python dicts keep insertion position). -/
def dbInsert (db : Store) (name : String) (t : Template) : Store :=
  match db with
  | [] => [(name, t)]
  | p :: rest => if p.1 = name then (name, t) :: rest else p :: dbInsert rest name t

/-- Dict deletion `del self.templates_db[name]`. -/
def dbErase (db : Store) (name : String) : Store :=
  match db with
  | [] => []
  | p :: rest => if p.1 = name then rest else p :: dbErase rest name

/-- The error taxonomy of the store operations: the `ValueError`s raised by
`create_template`/`update_template`/`delete_template`, distinguished by their
messages (spec section 7). -/
inductive TemplateError where
  | invalidName : TemplateError
  | duplicateName (name : String) : TemplateError
  | notFound (name : String) : TemplateError
deriving DecidableEq, Repr

/-- `TemplateManager.create_template` (lines 97-145).  The `datetime.now()`
call is the `now` parameter; the exceptions are raised before any mutation, so
the error cases return no store. -/
def create_template (name description content author : String)
    (tags technologies : List String) (is_official : Bool)
    (now : DateTime) (db : Store) : Except TemplateError (Template × Store) :=
  if name = "" || !pyIsAlnum (stripSeps name) then
    .error .invalidName
  else if (dbGet db name).isSome then
    .error (.duplicateName name)
  else
    let template : Template :=
      { name := name
        description := description
        content := content
        author := author
        version := "1.0.0"
        tags := tags
        technologies := technologies
        created_at := now
        updated_at := now
        downloads := 0
        rating := 0
        is_official := is_official
        is_custom := true
        file_size := (strBytes content).length
        checksum := sha256Hex content }
    .ok (template, dbInsert db name template)

/-- `TemplateManager.update_template` (lines 147-187). -/
def update_template (name : String) (description content : Option String)
    (tags technologies : Option (List String)) (version : Option String)
    (now : DateTime) (db : Store) : Except TemplateError (Template × Store) :=
  match dbGet db name with
  | none => .error (.notFound name)
  | some template =>
    let t1 := match description with
      | some d => { template with description := d }
      | none => template
    let t2 := match content with
      | some c =>
        { t1 with content := c, file_size := (strBytes c).length, checksum := sha256Hex c }
      | none => t1
    let t3 := match tags with
      | some ts => { t2 with tags := ts }
      | none => t2
    let t4 := match technologies with
      | some ts => { t3 with technologies := ts }
      | none => t3
    let t5 := match version with
      | some v => { t4 with version := v }
      | none => t4
    let t6 := { t5 with updated_at := now }
    .ok (t6, dbInsert db name t6)

/-- `TemplateManager.delete_template` (lines 189-209); `Confirm.ask` is the
`confirm` parameter. -/
def delete_template (name : String) (force confirm : Bool) (db : Store) :
    Except TemplateError (Bool × Store) :=
  if (dbGet db name).isNone then .error (.notFound name)
  else if !force && !confirm then .ok (false, db)
  else .ok (true, dbErase db name)

/-- The export document written by `export_template`: the full template record
plus the export timestamp and marker (JSON serialization of the datetimes via
`isoformat`/`fromisoformat` is lossless and abstracted away). -/
structure ExportData where
  template : Template
  exported_at : DateTime
  exported_by : String
deriving DecidableEq, Repr

/-- `TemplateManager.export_template` (lines 285-313): `None` when the name is
unknown (the function prints and returns `False`), otherwise the document. -/
def export_template (name : String) (now : DateTime) (db : Store) : Option ExportData :=
  match dbGet db name with
  | none => none
  | some t => some { template := t, exported_at := now, exported_by := "gign" }

/-- `TemplateManager.import_template` (lines 315-348): rebuilds the `Template`
verbatim from the document (no recomputation of checksum or size), asks for
confirmation on a name collision, then stores it.  Returns the success flag
and the resulting store. -/
def import_template (data : ExportData) (confirmOverwrite : Bool) (db : Store) :
    Bool × Store :=
  let template := data.template
  if (dbGet db template.name).isSome && !confirmOverwrite then
    (false, db)
  else
    (true, dbInsert db template.name template)

/-- `TemplateManager._load_templates_database` (lines 61-76): parses the
metadata JSON and reconstructs each `Template` verbatim via
`Template(**template_data)`; the records are returned exactly as stored, with
no checksum verification of any kind. JSON decoding is abstracted, leaving the
identity on the decoded records. -/
def load_templates_database (data : List (String × Template)) : List (String × Template) :=
  data.map (fun p => (p.1, p.2))

/-- Integrity of one template: the stored checksum is the SHA-256 of the
content and the stored size is its UTF-8 byte length (spec section 3). -/
def templateIntact (t : Template) : Prop :=
  t.checksum = sha256Hex t.content ∧ t.file_size = (strBytes t.content).length

instance (t : Template) : Decidable (templateIntact t) := by
  unfold templateIntact; infer_instance

/-- Integrity of every template in the store. -/
def storeIntact (db : Store) : Prop :=
  ∀ p ∈ db, templateIntact p.2

instance (db : Store) : Decidable (storeIntact db) := by
  unfold storeIntact; infer_instance

/-- A mutating store operation together with its arguments. -/
inductive Op where
  | create (name description content author : String)
      (tags technologies : List String) (is_official : Bool) (now : DateTime) : Op
  | update (name : String) (description content : Option String)
      (tags technologies : Option (List String)) (version : Option String)
      (now : DateTime) : Op
  | delete (name : String) (force confirm : Bool) : Op

/-- Post-state of one operation.  A raised `ValueError` propagates before any
mutation of `templates_db`, so the failing cases leave the store unchanged. -/
def applyOp (db : Store) : Op → Store
  | .create name description content author tags technologies is_official now =>
    match create_template name description content author tags technologies is_official now db with
    | .ok (_, db') => db'
    | .error _ => db
  | .update name description content tags technologies version now =>
    match update_template name description content tags technologies version now db with
    | .ok (_, db') => db'
    | .error _ => db
  | .delete name force confirm =>
    match delete_template name force confirm db with
    | .ok (_, db') => db'
    | .error _ => db

/-! ### `AIRecommendationEngine` (ai_recommendations.py) -/

/-- The float literal `0.8` of the source, as an exact rational (given as an
explicitly normalized `Rat` so that proofs can evaluate it; see
`conf_literals` for the tie to the numeral). -/
def q080 : ℚ := ⟨4, 5, by decide, by decide⟩

/-- The float literal `0.85` of the source, as an exact rational. -/
def q085 : ℚ := ⟨17, 20, by decide, by decide⟩

/-- The float literal `0.9` of the source, as an exact rational. -/
def q090 : ℚ := ⟨9, 10, by decide, by decide⟩

/-- The float literal `0.95` of the source, as an exact rational. -/
def q095 : ℚ := ⟨19, 20, by decide, by decide⟩

/-- The `Recommendation` dataclass (ai_recommendations.py lines 18-27);
`confidence` is a float in the source, modelled as `ℚ` (all literals exact). -/
structure Recommendation where
  title : String
  description : String
  priority : String
  category : String
  action : String
  confidence : ℚ
  reasoning : String
deriving DecidableEq, Repr

/-- The project signals obtained by walking the directory tree.  The fields
are exactly what the analyzers read: the dict built by
`_analyze_project_structure` (file-extension counts, sensitive files, large
files, cache dirs) plus the two direct scans of the best-practice analyzer
(the `rglob("*.log")` result and the top-level directory names).  The
file-system walk itself is the external Collector (spec sections 2 and 6). -/
structure ProjectSignals where
  file_types : List (String × Nat)
  sensitive_files : List String
  large_files : List String
  cache_dirs : List String
  log_files : List String
  top_level_dirs : List String

/-- Python `str.title()` (ASCII letters): uppercase a letter not preceded by a
letter, lowercase one that is. -/
def pyTitleGo (prevAlpha : Bool) : List Char → List Char
  | [] => []
  | c :: rest =>
    (if c.isAlpha then (if prevAlpha then c.toLower else c.toUpper) else c)
      :: pyTitleGo c.isAlpha rest

/-- Python `str.title()`. -/
def pyTitle (s : String) : String := String.mk (pyTitleGo false s.toList)

/-- `_load_community_patterns` (lines 97-112). -/
def community_patterns : List (String × List String) :=
  [("python",
    ["*.pyc", "__pycache__/", ".pytest_cache/", ".coverage",
     "htmlcov/", ".tox/", ".venv/", "venv/", ".mypy_cache/"]),
   ("node",
    ["node_modules/", "npm-debug.log*", "yarn-debug.log*", "yarn-error.log*",
     ".npm", ".eslintcache", ".next/", "out/", ".nuxt/"]),
   ("java",
    ["target/", "*.class", "*.jar", ".gradle/", "build/",
     ".idea/", ".eclipse/", "*.iml"])]

/-- `_generate_security_recommendations` (lines 211-242). -/
def generate_security_recommendations (signals : ProjectSignals) : List Recommendation :=
  (if !signals.sensitive_files.isEmpty then
    [{ title := "Sensitive Files Detected"
       description := "Found " ++ toString signals.sensitive_files.length
         ++ " potentially sensitive files"
       priority := "critical"
       category := "security"
       action := "Review and add appropriate patterns to .gitignore"
       confidence := q095
       reasoning := "Sensitive files like .env, .key, .pem files should never be committed" }]
   else []) ++
  (if !(signals.file_types.filter (fun p => hasSub "config".toList p.1.toList)).isEmpty then
    [{ title := "Configuration Files"
       description := "Configuration files detected that may contain sensitive data"
       priority := "high"
       category := "security"
       action := "Review config files and add sensitive ones to .gitignore"
       confidence := q080
       reasoning := "Configuration files often contain API keys, passwords, or other secrets" }]
   else [])

/-- `_generate_performance_recommendations` (lines 244-274). -/
def generate_performance_recommendations (signals : ProjectSignals) : List Recommendation :=
  (if !signals.large_files.isEmpty then
    [{ title := "Large Files Detected"
       description := "Found " ++ toString signals.large_files.length
         ++ " files larger than 10MB"
       priority := "high"
       category := "performance"
       action := "Add large files to .gitignore or use Git LFS"
       confidence := q090
       reasoning := "Large files slow down git operations and increase repository size" }]
   else []) ++
  (if !signals.cache_dirs.isEmpty then
    [{ title := "Cache Directories"
       description := "Found " ++ toString signals.cache_dirs.length ++ " cache directories"
       priority := "medium"
       category := "performance"
       action := "Add cache directories to .gitignore"
       confidence := q085
       reasoning := "Cache directories contain temporary files that should not be committed" }]
   else [])

/-- `_generate_best_practice_recommendations` (lines 276-311); `build_dirs` is
the filter of the top-level directories against `["build", "dist", "out"]`. -/
def generate_best_practice_recommendations (signals : ProjectSignals) : List Recommendation :=
  let build_dirs := signals.top_level_dirs.filter
    (fun d => d = "build" || d = "dist" || d = "out")
  (if !signals.log_files.isEmpty then
    [{ title := "Log Files"
       description := "Found " ++ toString signals.log_files.length ++ " log files"
       priority := "medium"
       category := "best_practice"
       action := "Add *.log to .gitignore"
       confidence := q090
       reasoning := "Log files contain runtime information and should not be committed" }]
   else []) ++
  (if !build_dirs.isEmpty then
    [{ title := "Build Output Directories"
       description := "Found " ++ toString build_dirs.length ++ " build output directories"
       priority := "high"
       category := "best_practice"
       action := "Add build output directories to .gitignore"
       confidence := q095
       reasoning := "Build outputs are generated files that should not be committed" }]
   else [])

/-- `_generate_technology_recommendations` (lines 313-345).  Note the Python
truthiness of `if existing_gitignore:`: `None` and the empty string both skip
the filtering, leaving every pattern missing. -/
def generate_technology_recommendations (technologies : List String)
    (existing_gitignore : Option String) : List Recommendation :=
  technologies.flatMap (fun tech =>
    match List.lookup tech community_patterns with
    | none => []
    | some patterns =>
      let missing_patterns :=
        match existing_gitignore with
        | some g =>
          if g ≠ "" then patterns.filter (fun p : String => !hasSub p.toList g.toList)
          else patterns
        | none => patterns
      if !missing_patterns.isEmpty then
        [{ title := pyTitle tech ++ " Best Practices"
           description := "Missing " ++ toString missing_patterns.length
             ++ " recommended patterns for " ++ tech
           priority := "high"
           category := "best_practice"
           action := "Add " ++ tech ++ "-specific patterns to .gitignore"
           confidence := q090
           reasoning := "Community best practices for " ++ tech ++ " projects" }]
      else [])

/-- `_priority_score` (lines 347-350): dict lookup with default 1. -/
def priority_score (priority : String) : Nat :=
  (List.lookup priority [("low", 1), ("medium", 2), ("high", 3), ("critical", 4)]).getD 1

/-- The sort key of `analyze_project_and_recommend`:
`(self._priority_score(x.priority), x.confidence)`. -/
def recKey (r : Recommendation) : Nat × ℚ :=
  (priority_score r.priority, r.confidence)

/-- Descending comparison on the key: `recLE a b` holds when `a` may precede
`b` after `list.sort(key=..., reverse=True)`, i.e. `recKey b ≤ recKey a`
lexicographically. -/
def recLE (a b : Recommendation) : Bool :=
  decide ((recKey b).1 < (recKey a).1 ∨
    ((recKey b).1 = (recKey a).1 ∧ (recKey b).2 ≤ (recKey a).2))

/-- Stable insertion into a descending-sorted list: an element is placed
before the first element it compares greater-or-equal to, so an
earlier-in-input element precedes later equal-key elements. -/
def insertRec (a : Recommendation) : List Recommendation → List Recommendation
  | [] => [a]
  | b :: rest => if recLE a b then a :: b :: rest else b :: insertRec a rest

/-- Python `recommendations.sort(key=lambda x: (priority_score, confidence),
reverse=True)`: a stable descending sort (CPython's sort is stable and
`reverse=True` preserves the relative order of equal elements).  Modelled as
stable insertion sort, which computes the same list as any stable sort. -/
def sortRecs (l : List Recommendation) : List Recommendation :=
  l.foldr insertRec []

/-- `analyze_project_and_recommend` (lines 114-156): concatenate the four
analyzers' results, then stable-sort descending by (priority score,
confidence). -/
def analyze_project_and_recommend (signals : ProjectSignals)
    (detected_technologies : List String) (existing_gitignore : Option String) :
    List Recommendation :=
  sortRecs
    (generate_security_recommendations signals ++
     generate_performance_recommendations signals ++
     generate_best_practice_recommendations signals ++
     generate_technology_recommendations detected_technologies existing_gitignore)

/-! ## Spec-side predicates

These two definitions follow the words of the spec (sections 4.2 and 8), to be
compared with the source-side functions above. -/

/-- Spec section 8, per line: a non-comment line (comment = trimmed form starts
with `#`) either is empty, or does not start with `/` unless it ends with `/`
and does not contain `**` unless it ends with `/`. -/
def specLineOk (rawLine : String) : Bool :=
  let l := pyStrip rawLine
  l = "" || pyStartsWith l "#" ||
    ((!pyStartsWith l "/" || pyEndsWith l "/") && (!hasDoubleStar l || pyEndsWith l "/"))

/-- Spec section 4.2, per character of a name: a letter, a digit, `-` or `_`. -/
def specNameChar (c : Char) : Bool :=
  c.isAlphanum || c = '-' || c = '_'

/-! ## Concrete fixtures used by witnesses and counterexamples -/

/-- The template produced by
`create_template "t1" "d" "x" "a" [] [] false 0`. -/
def tplFix : Template :=
  { name := "t1", description := "d", content := "x", author := "a",
    version := "1.0.0", tags := [], technologies := [], created_at := 0,
    updated_at := 0, downloads := 0, rating := 0, is_official := false,
    is_custom := true, file_size := (strBytes "x").length,
    checksum := sha256Hex "x" }

/-- A template record whose stored checksum does not match its content. -/
def badTpl : Template :=
  { name := "t", description := "", content := "x", author := "a",
    version := "1.0.0", tags := [], technologies := [], created_at := 0,
    updated_at := 0, downloads := 0, rating := 0, is_official := false,
    is_custom := true, file_size := 1, checksum := "bogus" }

/-- An import document carrying `badTpl`. -/
def badDoc : ExportData :=
  { template := badTpl, exported_at := 0, exported_by := "gign" }

/-! ## Lemmas about the validator -/

theorem lineErrors_eq_nil (i : Nat) (raw : String) :
    lineErrors i raw = [] ↔ specLineOk raw = true := by
  simp only [lineErrors, specLineOk]
  by_cases h0 : pyStrip raw = "" <;>
    by_cases h1 : pyStartsWith (pyStrip raw) "#" <;>
      by_cases h2 : pyStartsWith (pyStrip raw) "/" <;>
        by_cases h3 : pyEndsWith (pyStrip raw) "/" <;>
          by_cases h4 : hasDoubleStar (pyStrip raw) <;>
            simp [h0, h1, h2, h3, h4]

theorem lineNo_of_mem_lineErrors {e : ContentError} {i : Nat} {raw : String}
    (h : e ∈ lineErrors i raw) : e.lineNo = i := by
  simp only [lineErrors] at h
  split at h
  · rcases List.mem_append.mp h with h | h <;>
      (split at h <;> simp_all [ContentError.lineNo])
  · simp at h

theorem le_lineNo_of_mem_flatMap :
    ∀ (n : Nat) (ls : List String) {e : ContentError},
      e ∈ (List.enumFrom n ls).flatMap (fun p => lineErrors p.1 p.2) → n ≤ e.lineNo := by
  intro n ls
  induction ls generalizing n with
  | nil => simp
  | cons x ls ih =>
    intro e he
    simp only [List.enumFrom, List.flatMap_cons, List.mem_append] at he
    rcases he with he | he
    · exact Nat.le_of_eq (lineNo_of_mem_lineErrors he).symm
    · exact Nat.le_of_succ_le (ih (n + 1) he)

theorem flatMap_lineErrors_pairwise (n : Nat) (ls : List String) :
    (((List.enumFrom n ls).flatMap (fun p => lineErrors p.1 p.2)).map
      ContentError.lineNo).Pairwise (· ≤ ·) := by
  induction ls generalizing n with
  | nil => simp
  | cons x ls ih =>
    simp only [List.enumFrom, List.flatMap_cons, List.map_append]
    rw [List.pairwise_append]
    refine ⟨?_, ih (n + 1), ?_⟩
    · rw [List.pairwise_map]
      refine List.pairwise_of_forall_mem_list (fun a ha b hb => ?_)
      rw [lineNo_of_mem_lineErrors ha, lineNo_of_mem_lineErrors hb]
    · intro a ha b hb
      obtain ⟨ea, hea, rfl⟩ := List.mem_map.mp ha
      obtain ⟨eb, heb, rfl⟩ := List.mem_map.mp hb
      rw [lineNo_of_mem_lineErrors hea]
      exact Nat.le_of_succ_le (le_lineNo_of_mem_flatMap (n + 1) ls heb)

theorem contentErrors_lineNo_pairwise (content : String) :
    ((contentErrors content).map ContentError.lineNo).Pairwise (· ≤ ·) := by
  simp only [contentErrors, List.map_append]
  rw [List.pairwise_append]
  refine ⟨?_, flatMap_lineErrors_pairwise 1 _, ?_⟩
  · split <;> simp
  · intro a ha b hb
    have ha0 : a = 0 := by
      split at ha <;> simp_all [ContentError.lineNo]
    simp [ha0]

/-- `C2` — counterexample.  The claim states that `validate_template_content`
accepts iff every non-comment line is empty or satisfies the two pattern
rules.  The empty string satisfies that right-hand side (its only line is
empty), yet the function rejects it: the source first appends
"Template content cannot be empty" whenever `content.strip()` is falsy. -/
theorem validate_content_empty_cex :
    (validate_template_content "").1 = false ∧
      (∀ raw ∈ pySplitLines "", specLineOk raw = true) := by decide

/-- `C2` — amended: `validate_template_content` accepts iff the text contains
a non-whitespace character and every line whose trimmed form is non-empty and
is not a comment (trimmed form starting with `#`) satisfies both rules: it
does not start with `/` unless it ends with `/`, and does not contain `**`
unless it ends with `/`. -/
theorem validate_content_iff_amended (content : String) :
    (validate_template_content content).1 = true ↔
      (pyStrip content ≠ "" ∧ ∀ raw ∈ pySplitLines content, specLineOk raw = true) := by
  have hsplit : (validate_template_content content).1 = true ↔ contentErrors content = [] := by
    simp [validate_template_content]
  rw [hsplit]
  simp only [contentErrors, List.append_eq_nil, List.flatMap_eq_nil_iff]
  constructor
  · rintro ⟨h1, h2⟩
    refine ⟨by intro h; simp [h] at h1, fun raw hraw => ?_⟩
    rw [← List.enumFrom_map_snd 1 (pySplitLines content)] at hraw
    obtain ⟨p, hp, rfl⟩ := List.mem_map.mp hraw
    exact (lineErrors_eq_nil p.1 p.2).mp (h2 p hp)
  · rintro ⟨h1, h2⟩
    refine ⟨by simp [h1], fun p hp => ?_⟩
    refine (lineErrors_eq_nil p.1 p.2).mpr (h2 p.2 ?_)
    rw [← List.enumFrom_map_snd 1 (pySplitLines content)]
    exact List.mem_map_of_mem _ hp

/-- `C9`: a single non-comment line whose trimmed form starts with `/`,
contains `**` and does not end with `/` contributes exactly two error
messages, the absolute-path one immediately followed by the double-star one,
and the whole error list is in non-decreasing line-number order. -/
theorem content_line_two_errors_ordered (content : String) (i : Nat) (raw : String)
    (hmem : (i, raw) ∈ List.enumFrom 1 (pySplitLines content))
    (hne : pyStrip raw ≠ "") (hcom : ¬ pyStartsWith (pyStrip raw) "#")
    (habs : pyStartsWith (pyStrip raw) "/") (hstar : hasDoubleStar (pyStrip raw))
    (hend : ¬ pyEndsWith (pyStrip raw) "/") :
    (validate_template_content content).1 = false ∧
    (∃ pre post, (validate_template_content content).2 =
        pre ++ [ContentError.absolutePath i (pyStrip raw), ContentError.doubleStar i (pyStrip raw)]
          ++ post) ∧
    (((validate_template_content content).2.map ContentError.lineNo).Pairwise (· ≤ ·)) := by
  have hline : lineErrors i raw =
      [ContentError.absolutePath i (pyStrip raw), ContentError.doubleStar i (pyStrip raw)] := by
    simp [lineErrors, hne, hcom, habs, hstar, hend]
  obtain ⟨s, t, hst⟩ := List.append_of_mem hmem
  have hsnd : (validate_template_content content).2 = contentErrors content := rfl
  have hdecomp : contentErrors content =
      ((if pyStrip content = "" then [ContentError.emptyContent] else []) ++
        s.flatMap (fun p => lineErrors p.1 p.2)) ++
      [ContentError.absolutePath i (pyStrip raw), ContentError.doubleStar i (pyStrip raw)] ++
      t.flatMap (fun p => lineErrors p.1 p.2) := by
    simp only [contentErrors, hst, List.flatMap_append, List.flatMap_cons, hline]
    simp [List.append_assoc]
  refine ⟨?_, ⟨_, _, by rw [hsnd, hdecomp]⟩, ?_⟩
  · have : contentErrors content ≠ [] := by
      rw [hdecomp]; simp
    simp only [validate_template_content]
    simpa using this
  · rw [hsnd]
    exact contentErrors_lineNo_pairwise content

/-- `C9` — witness at the concrete input `"/a**b"`. -/
theorem content_line_two_errors_ordered_witness :
    ((1, "/a**b") ∈ List.enumFrom 1 (pySplitLines "/a**b") ∧
      pyStrip "/a**b" ≠ "" ∧ ¬ pyStartsWith (pyStrip "/a**b") "#" ∧
      pyStartsWith (pyStrip "/a**b") "/" ∧ hasDoubleStar (pyStrip "/a**b") ∧
      ¬ pyEndsWith (pyStrip "/a**b") "/") ∧
    ((validate_template_content "/a**b").1 = false ∧
      (∃ pre post, (validate_template_content "/a**b").2 =
        pre ++ [ContentError.absolutePath 1 (pyStrip "/a**b"),
                ContentError.doubleStar 1 (pyStrip "/a**b")] ++ post) ∧
      (((validate_template_content "/a**b").2.map ContentError.lineNo).Pairwise (· ≤ ·))) :=
  ⟨by decide,
   content_line_two_errors_ordered "/a**b" 1 "/a**b" (by decide) (by decide) (by decide)
     (by decide) (by decide) (by decide)⟩

/-! ## Lemmas about name validation -/

theorem pyIsAlnum_stripSeps_iff (name : String) :
    pyIsAlnum (stripSeps name) = true ↔
      ((∀ c ∈ name.toList, specNameChar c = true) ∧
        ∃ c ∈ name.toList, c.isAlphanum = true) := by
  have hsep : ∀ c : Char, c.isAlphanum = true → c ≠ '-' ∧ c ≠ '_' := by
    intro c h
    constructor <;> rintro rfl <;> simp [Char.isAlphanum, Char.isAlpha, Char.isDigit,
      Char.isUpper, Char.isLower] at h
  simp only [pyIsAlnum, stripSeps, specNameChar]
  rw [Bool.and_eq_true]
  have htl : (String.mk ((name.toList.filter (fun c => c ≠ '-')).filter
      (fun c => c ≠ '_'))).toList =
      (name.toList.filter (fun c => c ≠ '-')).filter (fun c => c ≠ '_') := rfl
  rw [htl]
  constructor
  · rintro ⟨hne, hall⟩
    rw [Bool.not_eq_true', List.isEmpty_eq_false_iff_exists_mem] at hne
    rw [List.all_eq_true] at hall
    obtain ⟨c, hc⟩ := hne
    have hc' := hc
    simp only [List.mem_filter, decide_eq_true_eq] at hc'
    refine ⟨?_, c, hc'.1.1, hall c hc⟩
    intro d hd
    by_cases hd1 : d = '-'
    · simp [hd1]
    · by_cases hd2 : d = '_'
      · simp [hd2]
      · have hdm : d ∈ (name.toList.filter (fun c => c ≠ '-')).filter (fun c => c ≠ '_') := by
          simp only [List.mem_filter, decide_eq_true_eq]
          exact ⟨⟨hd, hd1⟩, hd2⟩
        simp [hall d hdm]
  · rintro ⟨hall, c, hc, hcal⟩
    obtain ⟨h1, h2⟩ := hsep c hcal
    have hcmem : c ∈ (name.toList.filter (fun c => c ≠ '-')).filter (fun c => c ≠ '_') := by
      simp only [List.mem_filter, decide_eq_true_eq]
      exact ⟨⟨hc, h1⟩, h2⟩
    constructor
    · rw [Bool.not_eq_true', List.isEmpty_eq_false_iff_exists_mem]
      exact ⟨c, hcmem⟩
    · rw [List.all_eq_true]
      intro d hd
      simp only [List.mem_filter, decide_eq_true_eq] at hd
      have := hall d hd.1.1
      simp only [Bool.or_eq_true, decide_eq_true_eq] at this
      rcases this with (h | h) | h
      · exact h
      · exact absurd h hd.1.2
      · exact absurd h hd.2

/-- `C3` — counterexample.  The claim states that `validate_template_name`
accepts any non-empty name of length at most 50 whose characters are all
letters, digits, `-` or `_`.  The name `"-"` satisfies all of that, yet the
source rejects it: `"-".replace('-','').replace('_','')` is the empty string
and Python's `"".isalnum()` is `False`. -/
theorem validate_name_dash_cex :
    (validate_template_name "-").1 = false ∧ "-" ≠ "" ∧ "-".length ≤ 50 ∧
      ∀ c ∈ "-".toList, specNameChar c = true := by decide

/-- `C3` — amended: `validate_template_name` accepts iff the name is
non-empty, has length at most 50, every character is a letter, digit, `-` or
`_`, and at least one character is a letter or digit (so that the name with
`-`/`_` removed is a non-empty alphanumeric string); and the error list holds
exactly one message per violated rule among emptiness, over-length and the
alphanumeric rule, collected without short-circuiting. -/
theorem validate_name_spec_amended (name : String) :
    ((validate_template_name name).1 = true ↔
      (name ≠ "" ∧ name.length ≤ 50 ∧
        (∀ c ∈ name.toList, specNameChar c = true) ∧
        ∃ c ∈ name.toList, c.isAlphanum = true)) ∧
    (nameEmptyMsg ∈ (validate_template_name name).2 ↔ name = "") ∧
    (nameTooLongMsg ∈ (validate_template_name name).2 ↔ name.length > 50) ∧
    (nameAlnumMsg ∈ (validate_template_name name).2 ↔
      ¬ ((∀ c ∈ name.toList, specNameChar c = true) ∧
          ∃ c ∈ name.toList, c.isAlphanum = true)) := by
  have hd1 : nameEmptyMsg ≠ nameTooLongMsg := by decide
  have hd2 : nameEmptyMsg ≠ nameAlnumMsg := by decide
  have hd3 : nameTooLongMsg ≠ nameAlnumMsg := by decide
  rw [← pyIsAlnum_stripSeps_iff name]
  by_cases h1 : name = "" <;>
    by_cases h2 : name.length > 50 <;>
      by_cases h3 : pyIsAlnum (stripSeps name) = true <;>
        simp [validate_template_name, h1, h2, h3, hd1, hd2, hd3,
          hd1.symm, hd2.symm, hd3.symm, Nat.not_lt, Nat.le_of_lt_succ,
          Nat.not_le, Nat.lt_of_succ_le] <;>
        omega

/-! ## Lemmas about the store database -/

theorem dbGet_dbInsert_self (db : Store) (n : String) (t : Template) :
    dbGet (dbInsert db n t) n = some t := by
  induction db with
  | nil => simp [dbInsert, dbGet]
  | cons p rest ih =>
    by_cases h : p.1 = n
    · simp [dbInsert, dbGet, h]
    · simp [dbInsert, dbGet, h, ih]

theorem dbGet_dbInsert_ne (db : Store) (n m : String) (t : Template) (h : m ≠ n) :
    dbGet (dbInsert db n t) m = dbGet db m := by
  induction db with
  | nil => simp [dbInsert, dbGet, Ne.symm h]
  | cons p rest ih =>
    by_cases hp : p.1 = n
    · simp only [dbInsert, if_pos hp, dbGet]
      rw [if_neg (fun hh => h hh.symm), if_neg (hp ▸ (fun hh => h hh.symm))]
    · simp only [dbInsert, if_neg hp, dbGet]
      split
      · rfl
      · exact ih

theorem mem_dbInsert {db : Store} {n : String} {t : Template} {p : String × Template}
    (h : p ∈ dbInsert db n t) : p = (n, t) ∨ p ∈ db := by
  induction db with
  | nil => simpa [dbInsert] using h
  | cons q rest ih =>
    simp only [dbInsert] at h
    split at h
    · rcases List.mem_cons.mp h with h | h
      · exact Or.inl h
      · exact Or.inr (List.mem_cons_of_mem _ h)
    · rcases List.mem_cons.mp h with h | h
      · exact Or.inr (h ▸ List.mem_cons_self _ _)
      · rcases ih h with h | h
        · exact Or.inl h
        · exact Or.inr (List.mem_cons_of_mem _ h)

theorem mem_dbErase {db : Store} {n : String} {p : String × Template}
    (h : p ∈ dbErase db n) : p ∈ db := by
  induction db with
  | nil => simpa [dbErase] using h
  | cons q rest ih =>
    simp only [dbErase] at h
    split at h
    · exact List.mem_cons_of_mem _ h
    · rcases List.mem_cons.mp h with h | h
      · exact h ▸ List.mem_cons_self _ _
      · exact List.mem_cons_of_mem _ (ih h)

theorem dbGet_mem {db : Store} {n : String} {t : Template}
    (h : dbGet db n = some t) : (n, t) ∈ db := by
  induction db with
  | nil => simp [dbGet] at h
  | cons p rest ih =>
    simp only [dbGet] at h
    split at h
    · rename_i hp
      have h2 : p.2 = t := Option.some.inj h
      have hpt : (n, t) = p := by rw [← hp, ← h2]
      exact hpt ▸ List.mem_cons_self _ _
    · exact List.mem_cons_of_mem _ (ih h)

theorem keys_ne_of_dbGet_none {db : Store} {n : String}
    (h : dbGet db n = none) : ∀ p ∈ db, p.1 ≠ n := by
  induction db with
  | nil => simp
  | cons q rest ih =>
    simp only [dbGet] at h
    split at h
    · exact absurd h (by simp)
    · rename_i hq
      intro p hp
      rcases List.mem_cons.mp hp with rfl | hp
      · exact hq
      · exact ih h p hp

theorem dbInsert_of_dbGet_none {db : Store} {n : String} (t : Template)
    (h : dbGet db n = none) : dbInsert db n t = db ++ [(n, t)] := by
  induction db with
  | nil => simp [dbInsert]
  | cons q rest ih =>
    simp only [dbGet] at h
    split at h
    · exact absurd h (by simp)
    · rename_i hq
      simp only [dbInsert, if_neg hq, List.cons_append]
      rw [ih h]

/-! ## Integrity of the store under mutating operations -/

theorem create_intact {db : Store} (h : storeIntact db)
    (name description content author : String) (tags technologies : List String)
    (is_official : Bool) (now : DateTime) :
    storeIntact (applyOp db
      (.create name description content author tags technologies is_official now)) := by
  by_cases h1 : (name = "" || !pyIsAlnum (stripSeps name)) = true
  · simpa [applyOp, create_template, h1] using h
  · by_cases h2 : (dbGet db name).isSome = true
    · simpa [applyOp, create_template, h1, h2] using h
    · simp only [applyOp, create_template, if_neg h1, if_neg h2]
      intro p hp
      rcases mem_dbInsert hp with rfl | hp
      · exact ⟨rfl, rfl⟩
      · exact h p hp

theorem update_intact {db : Store} (h : storeIntact db) (name : String)
    (description content : Option String) (tags technologies : Option (List String))
    (version : Option String) (now : DateTime) :
    storeIntact (applyOp db
      (.update name description content tags technologies version now)) := by
  cases hget : dbGet db name with
  | none => simpa [applyOp, update_template, hget] using h
  | some template =>
    simp only [applyOp, update_template, hget]
    intro p hp
    rcases mem_dbInsert hp with rfl | hp
    · have ht : templateIntact template := h _ (dbGet_mem hget)
      obtain ⟨hc, hf⟩ := ht
      cases description <;> cases content <;> cases tags <;> cases technologies <;>
        cases version <;> first
        | exact ⟨hc, hf⟩
        | exact ⟨rfl, rfl⟩
    · exact h p hp

theorem delete_intact {db : Store} (h : storeIntact db) (name : String)
    (force confirm : Bool) :
    storeIntact (applyOp db (.delete name force confirm)) := by
  by_cases h1 : (dbGet db name).isNone = true
  · simpa [applyOp, delete_template, h1] using h
  · by_cases h2 : (!force && !confirm) = true
    · simpa [applyOp, delete_template, h1, h2] using h
    · simp only [applyOp, delete_template, if_neg h1, if_neg h2]
      intro p hp
      exact h p (mem_dbErase hp)

theorem applyOp_intact (db : Store) (op : Op) (h : storeIntact db) :
    storeIntact (applyOp db op) := by
  cases op with
  | create name description content author tags technologies is_official now =>
    exact create_intact h name description content author tags technologies is_official now
  | update name description content tags technologies version now =>
    exact update_intact h name description content tags technologies version now
  | delete name force confirm =>
    exact delete_intact h name force confirm

/-- `C1` — amended: after any sequence of `create`, `update` and `delete`
operations on a store whose templates all satisfy the integrity invariant
(checksum is the SHA-256 of the content, size its UTF-8 byte length), the
invariant still holds for every template.  `import_template`, by contrast,
stores the supplied checksum and size verbatim (see the counterexample), and
`_load_templates_database` performs no checksum verification. -/
theorem cud_ops_preserve_integrity (ops : List Op) (db : Store) (h : storeIntact db) :
    storeIntact (List.foldl applyOp db ops) := by
  induction ops generalizing db with
  | nil => exact h
  | cons op ops ih => exact ih _ (applyOp_intact db op h)

/-- `C1` — witness: the invariant holds after a concrete create followed by a
content update. -/
theorem cud_ops_preserve_integrity_witness :
    storeIntact ([] : Store) ∧
      storeIntact (List.foldl applyOp ([] : Store)
        [Op.create "t1" "d" "x" "a" [] [] false 0,
         Op.update "t1" none (some "y") none none none 1]) :=
  ⟨by decide, cud_ops_preserve_integrity _ _ (by decide)⟩

/-- `C1` — counterexample.  Importing a document whose stored checksum does
not match its content succeeds, stores the record verbatim (no `CorruptTemplate`
condition exists anywhere in the code), and loading the database returns the
corrupt record unchanged.  This refutes the claim that after any sequence of
operations including import every stored checksum is recomputable from the
content, and that a mismatch is surfaced at load time. -/
theorem import_unverified_checksum_cex :
    (import_template badDoc false []).1 = true ∧
    (import_template badDoc false []).2 = [("t", badTpl)] ∧
    ¬ templateIntact badTpl ∧
    load_templates_database [("t", badTpl)] = [("t", badTpl)] := by
  refine ⟨rfl, rfl, ?_, rfl⟩
  set_option maxRecDepth 10000 in decide

/-! ## Create with invalid or duplicate names -/

/-- `C4` — counterexample.  A 51-character name is rejected by
`validate_template_name` (length rule) but `create_template` accepts it: the
creation path checks only non-emptiness and the alphanumeric rule, never the
length. -/
theorem create_overlong_name_cex :
    (validate_template_name (String.mk (List.replicate 51 'a'))).1 = false ∧
    (create_template (String.mk (List.replicate 51 'a')) "d" "x" "a" [] [] false 0
        []).toOption.isSome = true := by
  exact ⟨by decide, rfl⟩

/-- `C4` — amended: for every name that is empty or whose form with `-` and
`_` removed is not a non-empty alphanumeric string, `create_template` fails
with `InvalidName` and leaves the store unchanged.  (Over-length names, which
`validate_template_name` rejects, are not rejected by `create_template`.) -/
theorem create_rejects_invalid_name_amended (name description content author : String)
    (tags technologies : List String) (is_official : Bool) (now : DateTime) (db : Store)
    (h : name = "" ∨ pyIsAlnum (stripSeps name) = false) :
    create_template name description content author tags technologies is_official now db
        = .error .invalidName ∧
    applyOp db (.create name description content author tags technologies is_official now)
        = db := by
  have hc : (name = "" || !pyIsAlnum (stripSeps name)) = true := by
    rcases h with h | h <;> simp [h]
  exact ⟨by simp [create_template, hc], by simp [applyOp, create_template, hc]⟩

/-- `C4` — witness at the concrete name `"a b"` (contains a space). -/
theorem create_rejects_invalid_name_witness :
    ("a b" = "" ∨ pyIsAlnum (stripSeps "a b") = false) ∧
    (create_template "a b" "d" "c" "a" [] [] false 0 [] = .error .invalidName ∧
      applyOp [] (.create "a b" "d" "c" "a" [] [] false 0) = []) :=
  ⟨Or.inr (by decide),
   create_rejects_invalid_name_amended "a b" "d" "c" "a" [] [] false 0 []
     (Or.inr (by decide))⟩

/-- `C7`: after a successful `create` of name `n`, creating `n` again fails
with `DuplicateName`, the store is not mutated, and it contains exactly one
entry named `n`, holding exactly the record the first call produced. -/
theorem create_duplicate_fails
    (n d c a : String) (tg te : List String) (off : Bool) (now0 : DateTime) (db0 : Store)
    (t : Template) (db1 : Store)
    (d2 c2 a2 : String) (tg2 te2 : List String) (off2 : Bool) (now1 : DateTime)
    (h : create_template n d c a tg te off now0 db0 = .ok (t, db1)) :
    create_template n d2 c2 a2 tg2 te2 off2 now1 db1 = .error (.duplicateName n) ∧
    applyOp db1 (.create n d2 c2 a2 tg2 te2 off2 now1) = db1 ∧
    (db1.filter (fun p => p.1 = n)).length = 1 ∧
    dbGet db1 n = some t ∧
    t.name = n ∧ t.description = d ∧ t.content = c ∧ t.author = a ∧ t.version = "1.0.0" ∧
    t.tags = tg ∧ t.technologies = te ∧ t.created_at = now0 ∧ t.updated_at = now0 ∧
    t.downloads = 0 ∧ t.rating = 0 ∧ t.is_official = off ∧ t.is_custom = true ∧
    t.file_size = (strBytes c).length ∧ t.checksum = sha256Hex c := by
  simp only [create_template] at h
  split at h
  · exact absurd h (by simp)
  · split at h
    · exact absurd h (by simp)
    · rename_i hvalid hdup
      rw [Except.ok.injEq, Prod.mk.injEq] at h
      obtain ⟨ht, hdb⟩ := h
      subst ht
      subst hdb
      rw [Bool.not_eq_true] at hvalid
      rw [Bool.not_eq_true] at hdup
      have hnone : dbGet db0 n = none := by
        cases hd : dbGet db0 n
        · rfl
        · rw [hd] at hdup; simp at hdup
      have hins := dbInsert_of_dbGet_none
        ({ name := n, description := d, content := c, author := a, version := "1.0.0",
           tags := tg, technologies := te, created_at := now0, updated_at := now0,
           downloads := 0, rating := 0, is_official := off, is_custom := true,
           file_size := (strBytes c).length, checksum := sha256Hex c } : Template) hnone
      refine ⟨?_, ?_, ?_, dbGet_dbInsert_self _ _ _,
        rfl, rfl, rfl, rfl, rfl, rfl, rfl, rfl, rfl, rfl, rfl, rfl, rfl, rfl, rfl⟩
      · simp [create_template, hvalid, dbGet_dbInsert_self]
      · simp [applyOp, create_template, hvalid, dbGet_dbInsert_self]
      · rw [hins, List.filter_append, List.length_append]
        have h0 : db0.filter (fun p => p.1 = n) = [] := by
          rw [List.filter_eq_nil_iff]
          intro p hp
          simpa using keys_ne_of_dbGet_none hnone p hp
        rw [h0]
        simp

/-- `C7` — witness: a concrete create followed by a duplicate create. -/
theorem create_duplicate_fails_witness :
    create_template "t1" "d" "x" "a" [] [] false 0 [] = .ok (tplFix, [("t1", tplFix)]) ∧
    (create_template "t1" "d2" "y" "a2" [] [] true 1 [("t1", tplFix)]
        = .error (.duplicateName "t1") ∧
      applyOp [("t1", tplFix)] (.create "t1" "d2" "y" "a2" [] [] true 1)
        = [("t1", tplFix)] ∧
      (([("t1", tplFix)] : Store).filter (fun p => p.1 = "t1")).length = 1 ∧
      dbGet [("t1", tplFix)] "t1" = some tplFix ∧
      tplFix.name = "t1" ∧ tplFix.description = "d" ∧ tplFix.content = "x" ∧
      tplFix.author = "a" ∧ tplFix.version = "1.0.0" ∧ tplFix.tags = [] ∧
      tplFix.technologies = [] ∧ tplFix.created_at = 0 ∧ tplFix.updated_at = 0 ∧
      tplFix.downloads = 0 ∧ tplFix.rating = 0 ∧ tplFix.is_official = false ∧
      tplFix.is_custom = true ∧ tplFix.file_size = (strBytes "x").length ∧
      tplFix.checksum = sha256Hex "x") :=
  ⟨rfl, create_duplicate_fails "t1" "d" "x" "a" [] [] false 0 [] tplFix [("t1", tplFix)]
    "d2" "y" "a2" [] [] true 1 rfl⟩

/-! ## Export / import round trip and update frame -/

/-- `C8`: for every template stored in a store, exporting it and importing the
document into an empty store succeeds and yields a stored record whose
`content`, `checksum` and `file_size` are identical to the original's. -/
theorem export_import_roundtrip (db : Store) (n : String) (t : Template)
    (now : DateTime) (confirm : Bool) (h : dbGet db n = some t) :
    ∃ d u, export_template n now db = some d ∧
      (import_template d confirm []).1 = true ∧
      dbGet (import_template d confirm []).2 t.name = some u ∧
      u.content = t.content ∧ u.checksum = t.checksum ∧ u.file_size = t.file_size := by
  refine ⟨{ template := t, exported_at := now, exported_by := "gign" }, t,
    ?_, rfl, ?_, rfl, rfl, rfl⟩
  · simp [export_template, h]
  · simp [import_template, dbGet, dbInsert]

/-- `C8` — witness at a concrete one-template store. -/
theorem export_import_roundtrip_witness :
    dbGet [("t1", tplFix)] "t1" = some tplFix ∧
    (∃ d u, export_template "t1" 5 [("t1", tplFix)] = some d ∧
      (import_template d true []).1 = true ∧
      dbGet (import_template d true []).2 tplFix.name = some u ∧
      u.content = tplFix.content ∧ u.checksum = tplFix.checksum ∧
      u.file_size = tplFix.file_size) :=
  ⟨rfl, export_import_roundtrip [("t1", tplFix)] "t1" tplFix 5 true rfl⟩

/-- `C10`: a successful `update_template` supplying no optional field sets
`updated_at` to the current time and changes nothing else — neither any other
field of the template nor any other entry of the store. -/
theorem update_no_fields_only_updated_at (db : Store) (n : String) (t : Template)
    (now : DateTime) (h : dbGet db n = some t) :
    ∃ t' db', update_template n none none none none none now db = .ok (t', db') ∧
      t'.updated_at = now ∧
      t'.name = t.name ∧ t'.description = t.description ∧ t'.content = t.content ∧
      t'.author = t.author ∧ t'.version = t.version ∧ t'.tags = t.tags ∧
      t'.technologies = t.technologies ∧ t'.created_at = t.created_at ∧
      t'.downloads = t.downloads ∧ t'.rating = t.rating ∧
      t'.is_official = t.is_official ∧ t'.is_custom = t.is_custom ∧
      t'.file_size = t.file_size ∧ t'.checksum = t.checksum ∧
      dbGet db' n = some t' ∧ ∀ m, m ≠ n → dbGet db' m = dbGet db m := by
  refine ⟨{ t with updated_at := now }, dbInsert db n { t with updated_at := now },
    ?_, rfl, rfl, rfl, rfl, rfl, rfl, rfl, rfl, rfl, rfl, rfl, rfl, rfl, rfl, rfl,
    dbGet_dbInsert_self db n _, fun m hm => dbGet_dbInsert_ne db n m _ hm⟩
  simp [update_template, h]

/-- `C10` — witness at a concrete one-template store. -/
theorem update_no_fields_only_updated_at_witness :
    dbGet [("t1", tplFix)] "t1" = some tplFix ∧
    (∃ t' db', update_template "t1" none none none none none 7 [("t1", tplFix)]
        = .ok (t', db') ∧
      t'.updated_at = 7 ∧
      t'.name = tplFix.name ∧ t'.description = tplFix.description ∧
      t'.content = tplFix.content ∧ t'.author = tplFix.author ∧
      t'.version = tplFix.version ∧ t'.tags = tplFix.tags ∧
      t'.technologies = tplFix.technologies ∧ t'.created_at = tplFix.created_at ∧
      t'.downloads = tplFix.downloads ∧ t'.rating = tplFix.rating ∧
      t'.is_official = tplFix.is_official ∧ t'.is_custom = tplFix.is_custom ∧
      t'.file_size = tplFix.file_size ∧ t'.checksum = tplFix.checksum ∧
      dbGet db' "t1" = some t' ∧
      ∀ m, m ≠ "t1" → dbGet db' m = dbGet [("t1", tplFix)] m) :=
  ⟨rfl, update_no_fields_only_updated_at [("t1", tplFix)] "t1" tplFix 7 rfl⟩

/-- The four rational constants are exactly the float literals of the source
(0.8, 0.85, 0.9 and 0.95 are all exactly representable in binary floating
point and in ℚ). -/
theorem conf_literals : q080 = 0.8 ∧ q085 = 0.85 ∧ q090 = 0.9 ∧ q095 = 0.95 := by
  refine ⟨?_, ?_, ?_, ?_⟩ <;>
    (first
      | show Rat.mk' 4 5 = _
      | show Rat.mk' 17 20 = _
      | show Rat.mk' 9 10 = _
      | show Rat.mk' 19 20 = _) <;>
    rw [Rat.mk'_eq_divInt, Rat.divInt_eq_div] <;> norm_num

/-! ## Lemmas about the recommendation sort -/

theorem recLE_total (a b : Recommendation) : (recLE a b || recLE b a) = true := by
  simp only [recLE, Bool.or_eq_true, decide_eq_true_eq]
  rcases Nat.lt_trichotomy (recKey a).1 (recKey b).1 with h | h | h
  · exact Or.inr (Or.inl h)
  · rcases le_total (recKey b).2 (recKey a).2 with hc | hc
    · exact Or.inl (Or.inr ⟨h.symm, hc⟩)
    · exact Or.inr (Or.inr ⟨h, hc⟩)
  · exact Or.inl (Or.inl h)

theorem recLE_trans (a b c : Recommendation) (hab : recLE a b = true)
    (hbc : recLE b c = true) : recLE a c = true := by
  simp only [recLE, decide_eq_true_eq] at hab hbc ⊢
  rcases hab with h1 | ⟨h1, h1c⟩ <;> rcases hbc with h2 | ⟨h2, h2c⟩
  · exact Or.inl (h2.trans h1)
  · exact Or.inl (by omega)
  · exact Or.inl (by omega)
  · exact Or.inr ⟨h2.trans h1, h2c.trans h1c⟩

theorem insertRec_perm (a : Recommendation) (l : List Recommendation) :
    List.Perm (insertRec a l) (a :: l) := by
  induction l with
  | nil => rfl
  | cons b rest ih =>
    simp only [insertRec]
    split
    · rfl
    · exact (ih.cons b).trans (List.Perm.swap a b rest)

theorem sortRecs_perm (l : List Recommendation) : List.Perm (sortRecs l) l := by
  induction l with
  | nil => rfl
  | cons x xs ih => exact (insertRec_perm x (sortRecs xs)).trans (ih.cons x)

theorem pairwise_insertRec (a : Recommendation) (l : List Recommendation)
    (h : l.Pairwise (fun x y => recLE x y = true)) :
    (insertRec a l).Pairwise (fun x y => recLE x y = true) := by
  induction l with
  | nil => simp [insertRec]
  | cons b rest ih =>
    rw [List.pairwise_cons] at h
    obtain ⟨hb, hrest⟩ := h
    simp only [insertRec]
    split
    · rename_i hab
      rw [List.pairwise_cons]
      refine ⟨?_, List.pairwise_cons.mpr ⟨hb, hrest⟩⟩
      intro x hx
      rcases List.mem_cons.mp hx with rfl | hx
      · exact hab
      · exact recLE_trans a b x hab (hb x hx)
    · rename_i hab
      rw [List.pairwise_cons]
      refine ⟨?_, ih hrest⟩
      intro x hx
      rw [(insertRec_perm a rest).mem_iff, List.mem_cons] at hx
      rcases hx with rfl | hx
      · rcases Bool.or_eq_true _ _ |>.mp (recLE_total x b) with h' | h'
        · exact absurd h' hab
        · exact h'
      · exact hb x hx

theorem sortRecs_pairwise (l : List Recommendation) :
    (sortRecs l).Pairwise (fun x y => recLE x y = true) := by
  induction l with
  | nil => simp [sortRecs]
  | cons x xs ih => exact pairwise_insertRec x (sortRecs xs) ih

theorem filter_insertRec (k : Nat × ℚ) (a : Recommendation) (l : List Recommendation) :
    (insertRec a l).filter (fun r => recKey r = k) =
      (if recKey a = k then [a] else []) ++ l.filter (fun r => recKey r = k) := by
  induction l with
  | nil =>
    by_cases hpa : recKey a = k <;> simp [insertRec, List.filter, hpa]
  | cons b rest ih =>
    simp only [insertRec]
    split
    · rename_i hab
      by_cases hpa : recKey a = k <;> simp [List.filter_cons, hpa]
    · rename_i hab
      by_cases hpa : recKey a = k
      · have hpb : ¬ recKey b = k := by
          intro hbk
          apply hab
          simp only [recLE, decide_eq_true_eq]
          exact Or.inr ⟨by rw [hbk, hpa], by rw [hbk, hpa]⟩
        simp [List.filter_cons, hpa, hpb, ih]
      · simp [List.filter_cons, hpa, ih]

theorem filter_sortRecs (k : Nat × ℚ) (l : List Recommendation) :
    (sortRecs l).filter (fun r => recKey r = k) = l.filter (fun r => recKey r = k) := by
  induction l with
  | nil => simp [sortRecs]
  | cons x xs ih =>
    have : sortRecs (x :: xs) = insertRec x (sortRecs xs) := rfl
    rw [this, filter_insertRec, ih]
    by_cases hpx : recKey x = k <;> simp [List.filter_cons, hpx]

theorem critical_not_after_medium (a b : Recommendation)
    (h : recLE a b = true) (ha : a.priority = "medium") : b.priority ≠ "critical" := by
  intro hb
  have h2 : priority_score "medium" = 2 := by decide
  have h4 : priority_score "critical" = 4 := by decide
  simp only [recLE, decide_eq_true_eq, recKey, ha, hb, h2, h4] at h
  rcases h with h | ⟨h, _⟩ <;> omega

/-- `C5`: the engine returns exactly the concatenation of the four analyzers'
results, stably sorted in descending order of (priority score, confidence):
the result is a permutation of the concatenation, pairwise sorted under the
descending key order, stable (for every key value, the sublist with that key
equals the concatenation's sublist with that key, preserving pre-sort relative
order), and a critical-priority entry never follows a medium-priority one. -/
theorem analyze_returns_sorted_concat (signals : ProjectSignals)
    (technologies : List String) (existing_gitignore : Option String) :
    List.Perm (analyze_project_and_recommend signals technologies existing_gitignore)
        (generate_security_recommendations signals ++
         generate_performance_recommendations signals ++
         generate_best_practice_recommendations signals ++
         generate_technology_recommendations technologies existing_gitignore) ∧
    (analyze_project_and_recommend signals technologies existing_gitignore).Pairwise
        (fun x y => recLE x y = true) ∧
    (∀ k : Nat × ℚ,
      (analyze_project_and_recommend signals technologies existing_gitignore).filter
          (fun r => recKey r = k) =
        (generate_security_recommendations signals ++
         generate_performance_recommendations signals ++
         generate_best_practice_recommendations signals ++
         generate_technology_recommendations technologies existing_gitignore).filter
          (fun r => recKey r = k)) ∧
    (analyze_project_and_recommend signals technologies existing_gitignore).Pairwise
        (fun x y => x.priority = "medium" → y.priority ≠ "critical") :=
  ⟨sortRecs_perm _, sortRecs_pairwise _, fun k => filter_sortRecs k _,
   (sortRecs_pairwise _).imp (fun h ha => critical_not_after_medium _ _ h ha)⟩

/-- `C6`: on signals with one sensitive file `.env`, one log file, a `build`
directory, detected technology `python` and no existing ignore text, the
engine returns exactly a critical security recommendation (confidence 0.95)
first, then the high best-practice build recommendation (0.95), the high
best-practice python recommendation (0.9) reporting all 9 python patterns
missing, and the medium best-practice log recommendation (0.9). -/
theorem python_scenario_recommendations :
    (analyze_project_and_recommend
        { file_types := [], sensitive_files := [".env"], large_files := [],
          cache_dirs := [], log_files := ["app.log"], top_level_dirs := ["build"] }
        ["python"] none).map
        (fun r => (r.title, r.priority, r.category, r.confidence)) =
      [("Sensitive Files Detected", "critical", "security", q095),
       ("Build Output Directories", "high", "best_practice", q095),
       ("Python Best Practices", "high", "best_practice", q090),
       ("Log Files", "medium", "best_practice", q090)] ∧
    (analyze_project_and_recommend
        { file_types := [], sensitive_files := [".env"], large_files := [],
          cache_dirs := [], log_files := ["app.log"], top_level_dirs := ["build"] }
        ["python"] none).map (fun r => r.description) =
      ["Found 1 potentially sensitive files", "Found 1 build output directories",
       "Missing 9 recommended patterns for python", "Found 1 log files"] ∧
    ((analyze_project_and_recommend
        { file_types := [], sensitive_files := [".env"], large_files := [],
          cache_dirs := [], log_files := ["app.log"], top_level_dirs := ["build"] }
        ["python"] none).head?.map (fun r => r.priority)) = some "critical" ∧
    ((List.lookup "python" community_patterns).getD []).length = 9 := by
  decide

end GitignoreGen
